import Mathlib

/-!
Verification of the route-chord gallery notebook's data pipeline.

The notebook loads a route table with columns `(SourceID, DestinationID, Stops)`,
aggregates it twice with pandas, and filters a chord structure:

* `route_counts = routes.groupby(['SourceID', 'DestinationID']).Stops.count().reset_index()`
* `busiest = list(routes.groupby('SourceID').count().sort_values('Stops').iloc[-20:].index.values)`
* `busiest_airports = chord.select(AirportID=busiest, selection_mode='nodes')`

We embed the route table as a `List Route`.  `groupby(...).count()` is modelled as:
take the distinct grouping keys in ascending key order (pandas `groupby` sorts its
keys), and pair each key with the number of rows carrying that key (`Stops` is a
total column, so pandas `count`, which counts non-null entries, is the group size).
`sort_values('Stops')` is modelled as a stable sort ascending on the count, and
`iloc[-20:]` as dropping all but the last 20 entries.
-/

/-- One row of the `routes` table: `(SourceID, DestinationID, Stops)`. -/
structure Route where
  sourceID : Nat
  destinationID : Nat
  stops : Nat
deriving DecidableEq, Repr

/-- The grouping key of `groupby(['SourceID', 'DestinationID'])`. -/
def routeKey (r : Route) : Nat × Nat := (r.sourceID, r.destinationID)

/-- Lexicographic order on `(SourceID, DestinationID)` keys, the order in which
pandas `groupby` lists its group keys. -/
def pairLE (p q : Nat × Nat) : Prop := p.1 < q.1 ∨ (p.1 = q.1 ∧ p.2 ≤ q.2)

instance : DecidableRel pairLE := fun p q =>
  if h : p.1 < q.1 ∨ (p.1 = q.1 ∧ p.2 ≤ q.2) then isTrue h else isFalse h

/-- Number of route rows whose `(SourceID, DestinationID)` pair is `k`. -/
def countPair (rs : List Route) (k : Nat × Nat) : Nat :=
  (rs.filter (fun r => decide (routeKey r = k))).length

/-- The distinct `(SourceID, DestinationID)` pairs, in ascending key order (the
index of the grouped table). -/
def pairKeys (rs : List Route) : List (Nat × Nat) :=
  List.insertionSort pairLE (rs.map routeKey).dedup

/-- `routes.groupby(['SourceID', 'DestinationID']).Stops.count().reset_index()`:
one row per distinct `(SourceID, DestinationID)` pair, in ascending key order,
carrying the number of route rows in that group. -/
def route_counts (rs : List Route) : List ((Nat × Nat) × Nat) :=
  (pairKeys rs).map (fun k => (k, countPair rs k))

/-- Number of route rows whose `SourceID` is `s`. -/
def countSource (rs : List Route) (s : Nat) : Nat :=
  (rs.filter (fun r => decide (r.sourceID = s))).length

/-- The distinct `SourceID` values, in ascending order (the index of
`routes.groupby('SourceID').count()`). -/
def sourceIDs (rs : List Route) : List Nat :=
  List.insertionSort (· ≤ ·) (rs.map Route.sourceID).dedup

/-- `routes.groupby('SourceID').count()`, keeping the `Stops` column: each distinct
source id paired with its outgoing-route count. -/
def sourceCounts (rs : List Route) : List (Nat × Nat) :=
  (sourceIDs rs).map (fun s => (s, countSource rs s))

/-- Order on `(SourceID, count)` rows used by `sort_values('Stops')`. -/
def sndLE (p q : Nat × Nat) : Prop := p.2 ≤ q.2

instance : DecidableRel sndLE := fun p q =>
  if h : p.2 ≤ q.2 then isTrue h else isFalse h

instance : IsTotal (Nat × Nat) sndLE := ⟨fun a b => Nat.le_total a.2 b.2⟩

instance : IsTrans (Nat × Nat) sndLE := ⟨fun _ _ _ h1 h2 => Nat.le_trans h1 h2⟩

/-- `routes.groupby('SourceID').count().sort_values('Stops')`: the per-source
counts stably sorted ascending by count. -/
def sortedSourceCounts (rs : List Route) : List (Nat × Nat) :=
  List.insertionSort sndLE (sourceCounts rs)

/-- `list(....sort_values('Stops').iloc[-20:].index.values)`: the source ids of the
last 20 rows of the ascending-sorted per-source count table. -/
def busiest (rs : List Route) : List Nat :=
  ((sortedSourceCounts rs).drop ((sortedSourceCounts rs).length - 20)).map Prod.fst

/-- One row of the `airports` table (the fields the notebook uses). -/
structure Airport where
  airportID : Nat
  city : String
deriving DecidableEq, Repr

/-- The chord structure built by `hv.Chord((route_counts, nodes), ...)`: a node
table and an edge table whose rows are `((SourceID, DestinationID), Stops)`. -/
structure ChordGraph where
  nodes : List Airport
  edges : List ((Nat × Nat) × Nat)
deriving DecidableEq, Repr

/-- Modelled from the spec: the holoviews `Chord.select(AirportID=ids,
selection_mode='nodes')` implementation is not part of this repository fragment
(only its call site is).  Per the spec, node-mode selection keeps "only nodes
whose id is in that list and only edges where the node-selection policy includes
both ... endpoints". -/
def selectNodes (ids : List Nat) (g : ChordGraph) : ChordGraph :=
  { nodes := g.nodes.filter (fun a => decide (a.airportID ∈ ids))
    edges := g.edges.filter (fun e => decide (e.1.1 ∈ ids ∧ e.1.2 ∈ ids)) }

/-- The notebook bindings in scope when the `busiest_airports = ...` statement
runs; `busiest_airports` is `none` before the assignment. -/
structure NotebookState where
  chord : ChordGraph
  busiestList : List Nat
  busiest_airports : Option ChordGraph
deriving DecidableEq

/-- The statement `busiest_airports = chord.select(AirportID=busiest,
selection_mode='nodes')` as a state transformer: it writes the new binding and
touches nothing else. -/
def runSelectCell (s : NotebookState) : NotebookState :=
  { s with busiest_airports := some (selectNodes s.busiestList s.chord) }

/-- The spec's worked example `[(A,B,1),(A,B,1),(A,C,1)]` with `A = 1`, `B = 2`,
`C = 3`. -/
def exampleRoutes : List Route := [⟨1, 2, 1⟩, ⟨1, 2, 1⟩, ⟨1, 3, 1⟩]

/-- A table whose busiest-airport list is not in descending count order: source 1
has two outgoing routes, source 2 has one. -/
def routesC3 : List Route := [⟨1, 2, 0⟩, ⟨1, 3, 0⟩, ⟨2, 3, 0⟩]

/-- A table with 21 distinct source ids (0 through 20), where source 20 has two
outgoing routes and the others one each, so that the top-20 cut excludes id 0. -/
def routesRank : List Route :=
  (List.range 21).map (fun i => ⟨i, 100, 0⟩) ++ [⟨20, 101, 0⟩]

/-- A small concrete chord structure for exercising `selectNodes`. -/
def chordW : ChordGraph :=
  ⟨[⟨1, "a"⟩, ⟨2, "b"⟩, ⟨3, "c"⟩], [((1, 2), 3), ((2, 3), 1)]⟩

/-- C7: For the route table `[(A,B,1),(A,B,1),(A,C,1)]`, aggregation yields the
counts `{(A,B):2, (A,C):1}` and the source-grouped count for `A` is `3`. -/
theorem exampleRoutes_aggregation :
    route_counts exampleRoutes = [((1, 2), 2), ((1, 3), 1)] ∧
    countSource exampleRoutes 1 = 3 := by
  decide

/-- C6: the aggregation and top-N selection are total functions; on the empty
route table they return the empty route-count table and the empty
busiest-airport list rather than failing. -/
theorem empty_input_degenerate :
    route_counts [] = [] ∧ sourceCounts [] = [] ∧ busiest [] = [] := by
  decide

/-! ### Helper lemmas about the grouped tables -/

theorem pairKeys_nodup (rs : List Route) : (pairKeys rs).Nodup :=
  (List.perm_insertionSort _ _).symm.nodup (List.nodup_dedup _)

theorem mem_pairKeys {rs : List Route} {k : Nat × Nat} :
    k ∈ pairKeys rs ↔ ∃ r ∈ rs, routeKey r = k := by
  simp [pairKeys, List.mem_dedup]

theorem mem_sourceIDs {rs : List Route} {s : Nat} :
    s ∈ sourceIDs rs ↔ ∃ r ∈ rs, r.sourceID = s := by
  simp [sourceIDs, List.mem_dedup]

theorem nodup_sourceIDs (rs : List Route) : (sourceIDs rs).Nodup :=
  (List.perm_insertionSort _ _).symm.nodup (List.nodup_dedup _)

theorem sourceCounts_mem {rs : List Route} {p : Nat × Nat} (hp : p ∈ sourceCounts rs) :
    p.1 ∈ sourceIDs rs ∧ p.2 = countSource rs p.1 := by
  obtain ⟨s, hs, rfl⟩ := List.mem_map.mp hp
  exact ⟨hs, rfl⟩

theorem mem_sourceCounts_of_sourceID {rs : List Route} {s : Nat}
    (hs : s ∈ sourceIDs rs) : (s, countSource rs s) ∈ sourceCounts rs :=
  List.mem_map.mpr ⟨s, hs, rfl⟩

theorem sourceCounts_fst (rs : List Route) :
    (sourceCounts rs).map Prod.fst = sourceIDs rs := by
  unfold sourceCounts
  rw [List.map_map]
  exact List.map_id _

theorem sortedSourceCounts_sorted (rs : List Route) :
    List.Sorted sndLE (sortedSourceCounts rs) :=
  List.sorted_insertionSort sndLE _

/-- Splitting a list by a Boolean predicate loses no elements. -/
theorem length_filter_partition {α : Type} (p : α → Bool) (l : List α) :
    (l.filter p).length + (l.filter (fun a => !p a)).length = l.length := by
  induction l with
  | nil => rfl
  | cons a t ih =>
    cases hp : p a <;> simp [List.filter_cons, hp] <;> omega

/-- Summing the per-key group sizes over a duplicate-free key list covering every
row recovers the number of rows. -/
theorem sum_counts_eq_length {α κ : Type} [DecidableEq κ] (key : α → κ) (ks : List κ) :
    ∀ l : List α, ks.Nodup → (∀ a ∈ l, key a ∈ ks) →
      (ks.map (fun k => (l.filter (fun a => decide (key a = k))).length)).sum = l.length := by
  induction ks with
  | nil =>
    intro l _ hcov
    cases l with
    | nil => rfl
    | cons a t => exact absurd (hcov a (List.mem_cons_self a t)) (List.not_mem_nil _)
  | cons k ks ih =>
    intro l hnd hcov
    rw [List.map_cons, List.sum_cons]
    have hrest : ∀ k' ∈ ks,
        (l.filter (fun a => decide (key a = k'))).length
          = ((l.filter (fun a => !decide (key a = k))).filter
              (fun a => decide (key a = k'))).length := by
      intro k' hk'
      have hne : k' ≠ k := by
        intro h
        exact (List.nodup_cons.mp hnd).1 (h ▸ hk')
      rw [List.filter_filter]
      congr 1
      apply List.filter_congr
      intro a _
      by_cases h : key a = k'
      · simp [h, hne]
      · simp [h]
    have hcov' : ∀ a ∈ l.filter (fun a => !decide (key a = k)), key a ∈ ks := by
      intro a ha
      have hmem := List.mem_filter.mp ha
      have hak : ¬ key a = k := by
        intro h
        simp [h] at hmem
      rcases List.mem_cons.mp (hcov a hmem.1) with h | h
      · exact absurd h hak
      · exact h
    calc (l.filter (fun a => decide (key a = k))).length
          + (ks.map (fun k' => (l.filter (fun a => decide (key a = k'))).length)).sum
        = (l.filter (fun a => decide (key a = k))).length
          + (ks.map (fun k' => ((l.filter (fun a => !decide (key a = k))).filter
              (fun a => decide (key a = k'))).length)).sum := by
          rw [List.map_congr_left hrest]
      _ = (l.filter (fun a => decide (key a = k))).length
          + (l.filter (fun a => !decide (key a = k))).length := by
          rw [ih (l.filter (fun a => !decide (key a = k))) (List.nodup_cons.mp hnd).2 hcov']
      _ = l.length := length_filter_partition _ l

/-! ### The claims -/

/-- C1: the aggregated route-count table has exactly one entry per distinct
`(SourceID, DestinationID)` pair occurring in the table, and the count stored for
a pair equals the number of route rows whose source and destination match it. -/
theorem route_counts_correct (rs : List Route) :
    ((route_counts rs).map Prod.fst).Nodup ∧
    (∀ k, k ∈ (route_counts rs).map Prod.fst ↔ ∃ r ∈ rs, routeKey r = k) ∧
    (∀ k c, (k, c) ∈ route_counts rs →
      c = (rs.filter (fun r =>
        decide (r.sourceID = k.1 ∧ r.destinationID = k.2))).length) := by
  have hfst : (route_counts rs).map Prod.fst = pairKeys rs := by
    unfold route_counts
    rw [List.map_map]
    exact List.map_id _
  refine ⟨?_, ?_, ?_⟩
  · rw [hfst]
    exact pairKeys_nodup rs
  · intro k
    rw [hfst]
    exact mem_pairKeys
  · intro k c hkc
    obtain ⟨k', _, hEq⟩ := List.mem_map.mp hkc
    cases hEq
    unfold countPair
    congr 1
    apply List.filter_congr
    intro r _
    simp [routeKey, Prod.ext_iff]

/-- Witness for C1 at the spec's worked example: the stored count for the pair
`(1, 2)` really is the number of matching rows. -/
theorem route_counts_correct_witness :
    (2 : Nat) = (exampleRoutes.filter (fun r =>
      decide (r.sourceID = (1, 2).1 ∧ r.destinationID = (1, 2).2))).length :=
  (route_counts_correct exampleRoutes).2.2 (1, 2) 2 (by decide)

/-- C10: the counts in the aggregated route-count table sum to the number of
route rows: the per-pair grouping partitions the rows. -/
theorem route_counts_sum (rs : List Route) :
    ((route_counts rs).map Prod.snd).sum = rs.length := by
  have h : (route_counts rs).map Prod.snd
      = (pairKeys rs).map (fun k =>
          (rs.filter (fun r => decide (routeKey r = k))).length) := by
    unfold route_counts
    rw [List.map_map]
    rfl
  rw [h]
  apply sum_counts_eq_length routeKey (pairKeys rs) rs (pairKeys_nodup rs)
  intro r hr
  exact mem_pairKeys.mpr ⟨r, hr, rfl⟩

/-- C2: every source id in the busiest-airport list has an outgoing-route count
at least that of every source id occurring in the table but not in the list. -/
theorem busiest_counts_dominate (rs : List Route) (s t : Nat)
    (hs : s ∈ busiest rs) (ht : ∃ r ∈ rs, r.sourceID = t) (hnt : t ∉ busiest rs) :
    countSource rs t ≤ countSource rs s := by
  obtain ⟨p, hp, hps⟩ := List.mem_map.mp hs
  have hpsc : p ∈ sourceCounts rs :=
    (List.perm_insertionSort sndLE (sourceCounts rs)).mem_iff.mp
      (List.Sublist.mem hp (List.drop_sublist _ _))
  have hp2 : p.2 = countSource rs p.1 := (sourceCounts_mem hpsc).2
  obtain ⟨r, hr, hrt⟩ := ht
  have htid : t ∈ sourceIDs rs := mem_sourceIDs.mpr ⟨r, hr, hrt⟩
  have htsc : (t, countSource rs t) ∈ sortedSourceCounts rs :=
    (List.perm_insertionSort sndLE (sourceCounts rs)).mem_iff.mpr
      (mem_sourceCounts_of_sourceID htid)
  have hsplit := List.take_append_drop
    ((sortedSourceCounts rs).length - 20) (sortedSourceCounts rs)
  have hsorted : List.Sorted sndLE
      ((sortedSourceCounts rs).take ((sortedSourceCounts rs).length - 20)
        ++ (sortedSourceCounts rs).drop ((sortedSourceCounts rs).length - 20)) := by
    rw [hsplit]
    exact sortedSourceCounts_sorted rs
  have hcross := (List.pairwise_append.mp hsorted).2.2
  have htake : (t, countSource rs t) ∈
      (sortedSourceCounts rs).take ((sortedSourceCounts rs).length - 20) := by
    rcases List.mem_append.mp (by rw [hsplit]; exact htsc) with h | h
    · exact h
    · exact absurd (List.mem_map.mpr ⟨(t, countSource rs t), h, rfl⟩) hnt
  have hle := hcross _ htake _ hp
  rw [← hps, ← hp2]
  exact hle

/-- Witness for C2: in `routesRank`, source 20 (two routes) is in the busiest
list, source 0 (one route) is not, and the counts compare accordingly. -/
theorem busiest_counts_dominate_witness :
    countSource routesRank 0 ≤ countSource routesRank 20 :=
  busiest_counts_dominate routesRank 20 0 (by decide) (by decide) (by decide)

/-- C3 counterexample: for `routesC3` the busiest-airport list is `[2, 1]`, and
the outgoing-route count of its first element is strictly below that of its
second, so the list is not sorted by descending outgoing-route count. -/
theorem busiest_not_descending :
    busiest routesC3 = [2, 1] ∧
    countSource routesC3 2 < countSource routesC3 1 := by
  decide

/-- C3 amended: the busiest-airport list is sorted by ASCENDING outgoing-route
count (`sort_values` sorts ascending and `iloc[-20:]` keeps that order), ties
broken by the stable sort over the grouped order. -/
theorem busiest_sorted_ascending (rs : List Route) :
    List.Sorted (· ≤ ·) ((busiest rs).map (countSource rs)) := by
  have hsub : List.Sublist
      ((sortedSourceCounts rs).drop ((sortedSourceCounts rs).length - 20))
      (sortedSourceCounts rs) := List.drop_sublist _ _
  have hsorted : List.Sorted sndLE
      ((sortedSourceCounts rs).drop ((sortedSourceCounts rs).length - 20)) :=
    List.Pairwise.sublist hsub (sortedSourceCounts_sorted rs)
  have hmap : (busiest rs).map (countSource rs)
      = ((sortedSourceCounts rs).drop
          ((sortedSourceCounts rs).length - 20)).map Prod.snd := by
    unfold busiest
    rw [List.map_map]
    apply List.map_congr_left
    intro p hp
    have hpsc : p ∈ sourceCounts rs :=
      (List.perm_insertionSort sndLE (sourceCounts rs)).mem_iff.mp
        (List.Sublist.mem hp (List.drop_sublist _ _))
    exact ((sourceCounts_mem hpsc).2).symm
  rw [hmap]
  exact List.pairwise_map.mpr hsorted

/-- C4: the busiest-airport list has length `min 20 (number of distinct source
ids in the table)`. -/
theorem busiest_length (rs : List Route) :
    (busiest rs).length = min 20 (rs.map Route.sourceID).toFinset.card := by
  have hlen : (sortedSourceCounts rs).length = (rs.map Route.sourceID).dedup.length := by
    unfold sortedSourceCounts
    rw [(List.perm_insertionSort sndLE (sourceCounts rs)).length_eq]
    unfold sourceCounts
    rw [List.length_map]
    unfold sourceIDs
    exact (List.perm_insertionSort _ _).length_eq
  rw [List.card_toFinset]
  unfold busiest
  rw [List.length_map, List.length_drop, hlen]
  omega

/-- C5: node-mode selection yields a subset of the original structure: every
surviving node comes from the original node table and has its airport id in the
selected list, and every surviving edge comes from the original edge table and
has both endpoints in the selected list. -/
theorem selectNodes_spec (ids : List Nat) (g : ChordGraph) :
    (∀ a ∈ (selectNodes ids g).nodes, a ∈ g.nodes ∧ a.airportID ∈ ids) ∧
    (∀ e ∈ (selectNodes ids g).edges, e ∈ g.edges ∧ e.1.1 ∈ ids ∧ e.1.2 ∈ ids) := by
  constructor
  · intro a ha
    have h := List.mem_filter.mp ha
    exact ⟨h.1, of_decide_eq_true h.2⟩
  · intro e he
    have h := List.mem_filter.mp he
    have h2 := of_decide_eq_true h.2
    exact ⟨h.1, h2.1, h2.2⟩

/-- Witness for C5: the surviving edge `((1,2),3)` of `chordW` under selection by
`[1, 2]` comes from the original edge table and has both endpoints selected. -/
theorem selectNodes_spec_witness :
    ((1, 2), 3) ∈ chordW.edges ∧ (1 : Nat) ∈ [1, 2] ∧ (2 : Nat) ∈ ([1, 2] : List Nat) :=
  (selectNodes_spec [1, 2] chordW).2 ((1, 2), 3) (by decide)

/-- C8: the busiest-airport list contains no duplicate ids, and each of its
elements occurs as a `SourceID` in the route table. -/
theorem busiest_nodup_sources (rs : List Route) :
    (busiest rs).Nodup ∧ ∀ s ∈ busiest rs, ∃ r ∈ rs, r.sourceID = s := by
  constructor
  · have hnd : ((sortedSourceCounts rs).map Prod.fst).Nodup := by
      have hperm : List.Perm ((sortedSourceCounts rs).map Prod.fst)
          ((sourceCounts rs).map Prod.fst) :=
        (List.perm_insertionSort sndLE (sourceCounts rs)).map Prod.fst
      rw [sourceCounts_fst] at hperm
      exact hperm.symm.nodup (nodup_sourceIDs rs)
    have hsub : List.Sublist (busiest rs) ((sortedSourceCounts rs).map Prod.fst) := by
      unfold busiest
      exact List.Sublist.map Prod.fst (List.drop_sublist _ _)
    exact List.Nodup.sublist hsub hnd
  · intro s hs
    obtain ⟨p, hp, hps⟩ := List.mem_map.mp hs
    have hpsc : p ∈ sourceCounts rs :=
      (List.perm_insertionSort sndLE (sourceCounts rs)).mem_iff.mp
        (List.Sublist.mem hp (List.drop_sublist _ _))
    have h1 := (sourceCounts_mem hpsc).1
    rw [hps] at h1
    exact mem_sourceIDs.mp h1

/-- Witness for C8: id 2 is in the busiest list of `routesC3` and indeed occurs
as a `SourceID` there. -/
theorem busiest_nodup_sources_witness : ∃ r ∈ routesC3, r.sourceID = 2 :=
  (busiest_nodup_sources routesC3).2 2 (by decide)

/-- C9: the `busiest_airports = chord.select(...)` statement only writes the new
binding: the `chord` structure (its node and edge tables) and the busiest list
are left unchanged, and the new binding holds the filtered structure. -/
theorem runSelectCell_frame (s : NotebookState) :
    (runSelectCell s).chord = s.chord ∧
    (runSelectCell s).busiestList = s.busiestList ∧
    (runSelectCell s).busiest_airports = some (selectNodes s.busiestList s.chord) :=
  ⟨rfl, rfl, rfl⟩
